import Mathlib

/-!
Verification of the UniConsulting automation-service core
(`desktop-app/automation-service/{main.py, agent.py, utils.py}`).

The Python source is shallowly embedded as pure Lean functions:
dictionaries become association lists or structures, string operations
are modelled character-exactly on `List Char`, HTTP failures become
`Except`, and the stateful lifecycle coroutines become functions from
their injected external outcomes (engine run result, user decision,
poll responses) to the sequence of registry writes they perform.
-/

namespace UniAuto

/-! ## Character-exact string helpers (Python `in`, `.lower()`, `.strip()`) -/

/-- `listPrefixOf needle hay`: `needle` is a prefix of `hay` (char-exact). -/
def listPrefixOf : List Char → List Char → Bool
  | [], _ => true
  | _ :: _, [] => false
  | a :: as, b :: bs => a == b && listPrefixOf as bs

/-- `listSubOf needle hay`: `needle` occurs contiguously in `hay`;
this is Python's `needle in hay` on strings. -/
def listSubOf : List Char → List Char → Bool
  | needle, [] => listPrefixOf needle []
  | needle, c :: rest => listPrefixOf needle (c :: rest) || listSubOf needle rest

/-- Python `sub in hay` for strings. -/
def strContains (hay sub : String) : Bool :=
  listSubOf sub.data hay.data

/-- Python `s.lower()` (the source only ever lowercases ASCII text). -/
def lowerStr (s : String) : String :=
  String.mk (s.data.map Char.toLower)

/-- HTTP headers as the Python `dict` the source passes around. -/
abbrev Headers := List (String × String)

/-- Python `headers.get(k, '')`. -/
def headerGetD (headers : Headers) (k : String) : String :=
  (List.lookup k headers).getD ""

/-! ## `utils.py` — ProtectionDetector -/

/-- `utils.py` `cloudflare_flags` (checked case-sensitively against the HTML). -/
def cloudflare_flags : List String :=
  ["403 Forbidden", "cloudflare", "Security check", "Please Wait... | Cloudflare",
   "We are checking your browser...", "Checking your browser before accessing",
   "This process is automatic.", "DDoS protection by", "Ray ID:", "_cf_chl",
   "cf-spinner-please-wait"]

/-- `utils.has_cloudflare_protection`: the primary branch (status 403/503 with a
cloudflare `Server` header requires a content flag too) falls through to the
content-flag fallback, mirroring the Python control flow line by line. -/
def has_cloudflare_protection (status_code : Nat) (headers : Headers)
    (html_content : String) : Bool :=
  let server_header := lowerStr (headerGetD headers "Server")
  let flagsHit := cloudflare_flags.any (fun f => strContains html_content f)
  if status_code = 403 ∨ status_code = 503 then
    (strContains server_header "cloudflare" && flagsHit) || flagsHit
  else
    false

/-- `utils.py` `captcha_indicators`. -/
def captcha_indicators : List String :=
  ["captcha", "g-recaptcha", "h-captcha", "hcaptcha", "cf-turnstile", "recaptcha",
   "verify you are human", "prove you are human", "human verification",
   "bot detection", "security challenge"]

/-- `utils.is_captcha_page`. -/
def is_captcha_page (html_content : String) : Bool :=
  captcha_indicators.any (fun i => strContains (lowerStr html_content) i)

/-- The header names scanned by `utils.is_rate_limited`. -/
def rate_limit_headers : List String :=
  ["X-RateLimit-Remaining", "X-Rate-Limit-Remaining", "RateLimit-Remaining", "Retry-After"]

/-- `utils.py` rate-limit content indicators. -/
def rate_limit_indicators : List String :=
  ["rate limit", "too many requests", "slow down", "try again later",
   "request limit exceeded"]

/-- Python `s.strip()` (the source only ever strips ASCII whitespace). -/
def pyStrip (s : String) : String :=
  String.mk (((s.data.dropWhile Char.isWhitespace).reverse.dropWhile
    Char.isWhitespace).reverse)

/-- Python `s.endswith(suf)`. -/
def strEndsWith (s suf : String) : Bool :=
  listPrefixOf suf.data.reverse s.data.reverse

/-- One header check from `utils.is_rate_limited`'s loop: a `...Remaining`
header whose value parses as `0`, or a present `Retry-After`
(a non-integer `...Remaining` value is ignored, like Python's `except ValueError`). -/
def rateLimitHeaderHit (headers : Headers) (header : String) : Bool :=
  match List.lookup header headers with
  | none => false
  | some value =>
    if strEndsWith (lowerStr header) "remaining" then
      match value.toInt? with
      | some n => n == 0
      | none => false
    else if header = "Retry-After" then
      true
    else
      false

/-- `utils.is_rate_limited`. -/
def is_rate_limited (status_code : Nat) (headers : Headers) (html_content : String) : Bool :=
  if status_code = 429 then
    true
  else if rate_limit_headers.any (fun h => rateLimitHeaderHit headers h) then
    true
  else
    rate_limit_indicators.any (fun i => strContains (lowerStr html_content) i)

/-- `utils.check_page_accessibility`: returns `(is_accessible, reason)`,
checking the five rules in the source's order (first match wins). -/
def check_page_accessibility (status_code : Nat) (headers : Headers)
    (html_content : String) : Bool × String :=
  if has_cloudflare_protection status_code headers html_content then
    (false, "Cloudflare protection detected")
  else if is_captcha_page html_content then
    (false, "CAPTCHA challenge detected")
  else if is_rate_limited status_code headers html_content then
    (false, "Rate limiting detected")
  else if 400 ≤ status_code then
    (false, "HTTP error: " ++ toString status_code)
  else if (pyStrip html_content).length < 100 then
    (false, "Empty or minimal page content")
  else
    (true, "Page is accessible")

/-! ## Data model: `main.py` registry entries and responses -/

/-- The credentials dict built in `agent.UniversityApplicationAgent._build_task_prompt`
(`{"email": ..., "password": ..., "university": ...}`). -/
structure Creds where
  email : String
  password : String
  university : String
deriving DecidableEq

/-- One `active_tasks[task_id]` entry (`main.py`).  The `created_at` timestamp and
the raw stored request are carried by the dict but never read by any claimed
operation, so they are not modelled. -/
structure Job where
  status : String
  progress : Nat
  messages : List String
  account_credentials : Option Creds
  user_action : Option String
  description : Option String
deriving DecidableEq

/-- The `active_tasks` dict: an insert-at-front association list, looked up by
first match (observably equal to the Python dict under lookup). -/
abbrev Registry := List (String × Job)

/-- The `TaskStatus` response model of `GET /api/status/{task_id}`. -/
structure TaskStatus where
  task_id : String
  status : String
  progress : Nat
  message : String
  account_created : Option Creds
deriving DecidableEq

/-- Response of `POST /run-task`. -/
structure RunTaskResp where
  status : String
  task_description : String
  task_id : String
deriving DecidableEq

/-- Response of `POST /api/apply`. -/
structure ApplyResp where
  task_id : String
  status : String
deriving DecidableEq

/-- The registry entry `POST /run-task` writes before returning (`main.py`). -/
def initial_run_task_job (desc : String) : Job :=
  { status := "started", progress := 0, messages := ["Task queued for execution"],
    account_credentials := none, user_action := none, description := some desc }

/-- The registry entry `POST /api/apply` writes before returning (`main.py`). -/
def initial_apply_job : Job :=
  { status := "queued", progress := 0, messages := [],
    account_credentials := none, user_action := none, description := none }

/-- `POST /run-task`: registers the fresh id and returns immediately; the
generated uuid is injected as `freshId`. -/
def run_task (reg : Registry) (freshId desc : String) : Registry × RunTaskResp :=
  ((freshId, initial_run_task_job desc) :: reg,
   { status := "Task Started", task_description := desc, task_id := freshId })

/-- `POST /api/apply`: rejects with 400 when neither the request nor the
environment carries a Gemini key, else registers the fresh id and returns. -/
def start_application (reg : Registry) (freshId : String)
    (requestKey envKey : Option String) : Except (Nat × String) (Registry × ApplyResp) :=
  match requestKey.orElse (fun _ => envKey) with
  | none => .error (400, "GEMINI_API_KEY not configured")
  | some _ => .ok ((freshId, initial_apply_job) :: reg,
      { task_id := freshId, status := "started" })

/-- `GET /api/status/{task_id}` (`main.py get_status`): 404 on unknown id, else a
snapshot whose message is the last stored message or `"Waiting..."`. -/
def get_status (reg : Registry) (task_id : String) : Except (Nat × String) TaskStatus :=
  match List.lookup task_id reg with
  | none => .error (404, "Task not found")
  | some t => .ok
      { task_id := task_id, status := t.status, progress := t.progress,
        message := (t.messages.getLast?).getD "Waiting...",
        account_created := t.account_credentials }

/-- In-place mutation of the dict value at a key (Python
`active_tasks[task_id]["..."] = ...`): replace the first matching entry. -/
def setJob : Registry → String → Job → Registry
  | [], _, _ => []
  | (k, v) :: rest, id, j =>
    if k = id then (k, j) :: rest else (k, v) :: setJob rest id j

/-- `POST /api/confirm/{task_id}` (`main.py confirm_submission`): 404 on unknown
id, 400 unless the job is currently `awaiting_confirmation`, else it records
`user_action := action` — and changes nothing else (in particular not `status`). -/
def confirm_submission (reg : Registry) (task_id action : String) :
    Except (Nat × String) Registry :=
  match List.lookup task_id reg with
  | none => .error (404, "Task not found")
  | some t =>
    if t.status = "awaiting_confirmation" then
      .ok (setJob reg task_id { t with user_action := some action })
    else
      .error (400, "Task not awaiting confirmation")

/-! ## Progress broadcast (`main.py` `websocket_connections`)

`websocket_connections : dict[str, WebSocket]` holds at most ONE connection per
task id; `/ws/progress/{task_id}` does `websocket_connections[task_id] = websocket`
on every accept, and each `update_progress` sends the event to the single
connection stored under the id (if any).  We model the per-job slot and the
per-subscriber delivery log. -/

/-- The payload `update_progress` pushes on every state change. -/
structure ProgressEvent where
  status : String
  progress : Nat
  message : String
deriving DecidableEq

/-- Per-job broadcast state: the single connection slot and which subscriber
received which pushed events. -/
structure Bus where
  conn : Option Nat
  delivered : List (Nat × ProgressEvent)
deriving DecidableEq

/-- A subscriber attaching to the job's WebSocket endpoint:
`websocket_connections[task_id] = websocket` (overwrites any previous one). -/
def subscribeWs (b : Bus) (s : Nat) : Bus :=
  { b with conn := some s }

/-- `update_progress`'s push: sent only to the connection currently in the slot. -/
def publishWs (b : Bus) (e : ProgressEvent) : Bus :=
  match b.conn with
  | some s => { b with delivered := b.delivered ++ [(s, e)] }
  | none => b

/-- The pushed events subscriber `s` received, in order. -/
def receivedBy (b : Bus) (s : Nat) : List ProgressEvent :=
  (b.delivered.filter (fun p => p.1 == s)).map (fun p => p.2)

/-! ## Lifecycle runner for `/api/apply`
(`main.run_application_automation` composed with
`agent.UniversityApplicationAgent.apply_to_university`)

The coroutine's effect on its registry entry is a deterministic function of
the injected external outcomes: whether `browser_use` imported, the engine
run's result, the eventual user decision read by the confirmation wait loop,
and whether the follow-up submit run / browser close raise.  `Run.events`
records every `update_progress` call in order (ghost trace); `Run.credWrites`
counts writes to `account_credentials` (ghost counter). -/

/-- Result of the external engine capability `agent.run()`:
either a history or a raised exception message. -/
inductive EngineRun where
  | ok (history : List String)
  | err (msg : String)
deriving DecidableEq

/-- The dict returned by `apply_to_university` (`.get` of a missing
`ready_for_review` key is the `false` default). -/
structure ApplyResult where
  success : Bool
  message : String
  account_created : Option Creds
  ready_for_review : Bool
  documents_needed : List String
  notes : List String
deriving DecidableEq

/-- Ghost-traced job state of one lifecycle coroutine. -/
structure Run where
  job : Job
  events : List ProgressEvent
  credWrites : Nat
deriving DecidableEq

/-- `update_progress` (`main.py`): sets status and progress, appends the
message, and pushes the event (recorded in the ghost trace). -/
def upd (r : Run) (st : String) (p : Nat) (message : String) : Run :=
  let j := r.job
  let j := { j with status := st, progress := p, messages := j.messages ++ [message] }
  { r with job := j, events := r.events ++ [⟨st, p, message⟩] }

/-- `main.py` line 308: `task["account_credentials"] = result["account_created"]`. -/
def setCredentials (r : Run) (c : Creds) : Run :=
  { r with job := { r.job with account_credentials := some c },
           credWrites := r.credWrites + 1 }

/-- The wait loop exiting: `task["user_action"]` has been set by `Decide`. -/
def setUserAction (r : Run) (action : String) : Run :=
  { r with job := { r.job with user_action := some action } }

/-- `agent._parse_agent_history`: fixed success message, the agent's stashed
credentials, and keyword scans over the history messages. -/
def parse_agent_history (history : List String) (agentCreds : Option Creds) : ApplyResult :=
  { success := true,
    message := "Ready for Review - Form Completion Halted per Security Protocol",
    account_created := agentCreds,
    ready_for_review := false,
    documents_needed := history.filter (fun m =>
      strContains (lowerStr m) "upload" || strContains (lowerStr m) "document"),
    notes := history.filter (fun m =>
      strContains (lowerStr m) "error" || strContains (lowerStr m) "failed") }

/-- `agent.UniversityApplicationAgent.apply_to_university`.

`_build_task_prompt` is invoked exactly when no custom prompt is supplied, and
it unconditionally stashes `{email, generated_password, university}` in
`self.account_credentials` — before the engine has done anything.  An engine
failure is modelled at the `agent.run()` await (the only call in the `try`
block that interacts with the outside world); the `except` branch reports
`error` through the callback and returns a failure dict that still carries the
stashed credentials. -/
def apply_to_university (browserUseAvailable : Bool) (mode : String)
    (custom_prompt : Option String) (studentEmail universityName genPassword : String)
    (outcome : EngineRun) (r : Run) : Run × ApplyResult :=
  if ¬browserUseAvailable then
    (r, { success := false,
          message := "browser-use library not installed. Run: pip install browser-use langchain-google-genai",
          account_created := none, ready_for_review := false,
          documents_needed := [], notes := [] })
  else
    let r := upd r "initializing" 15 "Starting browser (visible mode)..."
    let agentCreds : Option Creds :=
      match custom_prompt with
      | some _ => none
      | none => some { email := studentEmail, password := genPassword,
                       university := universityName }
    let r := upd r "searching" 20
      ("Searching for " ++ universityName ++ " application portal...")
    match outcome with
    | .err msg =>
      let r := upd r "error" 0 ("Application failed: " ++ msg)
      (r, { success := false, message := msg, account_created := agentCreds,
            ready_for_review := false, documents_needed := [], notes := [] })
    | .ok history =>
      let r := upd r "processing" 80 "Processing application results..."
      let result := parse_agent_history history agentCreds
      if mode = "semi" then
        let r := upd r "review" 90 "Application form filled. Ready for teacher review."
        (r, { result with ready_for_review := true })
      else
        let r := upd r "completed" 100
          "Form filling completed (submission halted per protocol)."
        (r, result)

/-- `agent.submit_application`: runs the follow-up submit agent; its own
exception is caught internally and reported as `error` at progress 95. -/
def submit_application (r : Run) (submitError : Option String) : Run :=
  match submitError with
  | none => upd r "submitted" 100 "Application submitted!"
  | some e => upd r "error" 95 ("Submit failed: " ++ e)

/-- `agent.close` raising inside `run_application_automation`'s `try` lands in
the outer `except`, which reports `error` at progress 0. -/
def closeAgent (r : Run) (closeError : Option String) : Run :=
  match closeError with
  | none => r
  | some e => upd r "error" 0 ("Error: " ++ e)

/-- `main.run_application_automation`, run on the fresh `/api/apply` registry
entry.  `decision` is the `user_action` value that eventually releases the
confirmation wait loop (written by `Decide`; FastAPI restricts it to
`"submit"`/`"cancel"`). -/
def run_application_automation (browserUseAvailable : Bool) (mode : String)
    (custom_prompt : Option String) (studentEmail universityName genPassword : String)
    (outcome : EngineRun) (decision : String)
    (submitError closeError : Option String) : Run :=
  let r : Run := { job := initial_apply_job, events := [], credWrites := 0 }
  let r := upd r "starting" 5 "Initializing browser automation..."
  let r := upd r "searching" 10
    ("Searching for " ++ universityName ++ " application portal...")
  let (r, result) := apply_to_university browserUseAvailable mode custom_prompt
    studentEmail universityName genPassword outcome r
  let r := match result.account_created with
    | some c => setCredentials r c
    | none => r
  if mode = "semi" ∧ result.ready_for_review = true then
    let r := upd r "awaiting_confirmation" 90
      "Application filled. Awaiting teacher review..."
    let r := setUserAction r decision
    if decision = "submit" then
      let r := submit_application r submitError
      let r := upd r "completed" 100 "Application submitted successfully!"
      closeAgent r closeError
    else
      let r := upd r "cancelled" 100 "Application cancelled by teacher."
      closeAgent r closeError
  else
    let r := upd r "completed" 100 result.message
    closeAgent r closeError

/-- The status component of the ghost trace. -/
def statusesOf (r : Run) : List String :=
  r.events.map (fun e => e.status)

/-- The spec's terminal states. -/
def terminalStatuses : List String :=
  ["completed", "cancelled", "error"]

/-- All events after `e` keep `e`'s status and progress. -/
def pinnedFrom : ProgressEvent → List ProgressEvent → Bool
  | _, [] => true
  | e, f :: rest => f.status == e.status && f.progress == e.progress && pinnedFrom e rest

/-- Every terminal event in the trace pins status and progress for the rest of
the trace (the formal content of "terminal states are terminal"). -/
def terminalPinned : List ProgressEvent → Bool
  | [] => true
  | e :: rest =>
    (if terminalStatuses.contains e.status then pinnedFrom e rest else true)
      && terminalPinned rest

/-! ## `agent.run_automation_task` — browser launch, attach loop, task run -/

/-- Index of the first occurrence of `needle` in `hay`
(Python `hay.find(needle)`, `none` for `-1`). -/
def findIdx : List Char → List Char → Option Nat
  | [], needle => if listPrefixOf needle [] then some 0 else none
  | c :: rest, needle =>
    if listPrefixOf needle (c :: rest) then some 0
    else (findIdx rest needle).map (fun n => n + 1)

/-- The title-extraction in `check_current_page_for_cloudflare`:
`content.lower().find('<title>')`, `find('</title>', title_match)`, then
`content[title_match+7:title_end].lower()`. -/
def pageTitleLower (content : String) : Option String :=
  let cl := (lowerStr content).data
  match findIdx cl "<title>".data with
  | none => none
  | some tm =>
    match (findIdx (cl.drop tm) "</title>".data).map (fun n => n + tm) with
    | none => none
    | some te =>
      some (String.mk (((content.data.drop (tm + 7)).take (te - (tm + 7))).map Char.toLower))

/-- `agent.py` `cloudflare_indicators` (local list in
`check_current_page_for_cloudflare`). -/
def cloudflare_indicators : List String :=
  ["checking your browser", "please wait...", "ddos protection", "ray id:",
   "cf-browser-verification", "_cf_chl_opt", "cloudflare", "just a moment...",
   "enable javascript and cookies"]

/-- The blocking-title keywords of `check_current_page_for_cloudflare`. -/
def titleBlockWords : List String :=
  ["just a moment", "please wait", "attention required", "cloudflare"]

/-- The indicator loop of `check_current_page_for_cloudflare`: first indicator
present in the lowered content of a page under 50000 chars whose `<title>`
contains a blocking keyword. -/
def cfIndicatorHit (content : String) : Option String :=
  cloudflare_indicators.find? (fun indicator =>
    strContains (lowerStr content) indicator && decide (content.length < 50000) &&
      (match pageTitleLower content with
       | none => false
       | some title => titleBlockWords.any (fun w => strContains title w)))

/-- `agent.run_automation_task`'s `check_current_page_for_cloudflare` over the
content of the open pages (`pages[-1]` is inspected); returns
`(is_blocked, reason)`. -/
def check_current_page_for_cloudflare (pages : List String) : Bool × String :=
  match pages.getLast? with
  | none => (false, "No pages loaded")
  | some content =>
    let acc := check_page_accessibility 200 [] content
    if acc.1 = false then (true, acc.2)
    else
      match cfIndicatorHit content with
      | some indicator => (true, "Cloudflare challenge detected: " ++ indicator)
      | none => (false, "Page accessible")

/-- The post-run scan of `str(history)` for blocking indicators. -/
def historyBlocked (historyStr : String) : Bool :=
  ["blocked:", "captcha", "cloudflare", "access denied"].any
    (fun x => strContains (lowerStr historyStr) x)

/-- The `except` classifier for `agent.run` errors: message keywords that
reclassify the failure as `blocked` instead of `error`. -/
def blockingError (errStr : String) : Bool :=
  ["cloudflare", "captcha", "blocked", "403", "503"].any
    (fun x => strContains (lowerStr errStr) x)

/-- One poll of `http://127.0.0.1:{port}/json/version`: connection refused,
an HTTP response (carrying the `webSocketDebuggerUrl` field when present),
or any other client error. -/
inductive PollResponse where
  | connRefused
  | httpResp (status : Nat) (webSocketDebuggerUrl : Option String)
  | otherError (msg : String)
deriving DecidableEq

/-- `last_error` set on a refused connection (browser still starting). -/
def connectionRefusedMsg : String :=
  "Connection refused (Chrome may still be starting)"

/-- `last_error` set on a 502 response. -/
def badGatewayMsg : String :=
  "502 Bad Gateway - proxy may be intercepting"

/-- The CDP attach loop (`agent.py` lines 511–533): up to `fuel` polls, one per
1-second sleep, starting at attempt index `i` with the current `last_error`.
Returns `(cdp_url, last_error, attempts_used)`: a 200 response breaks with its
`webSocketDebuggerUrl` (even when the field is absent), a 502 records a
distinct failure reason, a refused connection records the still-starting
reason, any other status leaves `last_error` untouched, and any other client
error records its message. -/
def attachGo (endpoint : Nat → PollResponse) :
    Nat → Nat → Option String → Option String × Option String × Nat
  | 0, _, lastError => (none, lastError, 0)
  | fuel + 1, i, lastError =>
    match endpoint i with
    | .connRefused =>
      let x := attachGo endpoint fuel (i + 1) (some connectionRefusedMsg)
      (x.1, x.2.1, x.2.2 + 1)
    | .otherError m =>
      let x := attachGo endpoint fuel (i + 1) (some m)
      (x.1, x.2.1, x.2.2 + 1)
    | .httpResp stc ws =>
      if stc = 200 then (ws, lastError, 1)
      else if stc = 502 then
        let x := attachGo endpoint fuel (i + 1) (some badGatewayMsg)
        (x.1, x.2.1, x.2.2 + 1)
      else
        let x := attachGo endpoint fuel (i + 1) lastError
        (x.1, x.2.1, x.2.2 + 1)

/-- A poll yielded HTTP 200 (the loop's break condition). -/
def isOk200 : PollResponse → Bool
  | .httpResp stc _ => stc = 200
  | _ => false

/-- Python's f-string rendering of an `Optional[str]`. -/
def pyOptStr : Option String → String
  | none => "None"
  | some s => s

/-- `agent.run()` inside `run_automation_task`: the stringified history on
success, or the raised exception's message. -/
inductive AgentRunResult where
  | ok (historyStr : String)
  | raises (msg : String)
deriving DecidableEq

/-- Ghost-traced state of one `/run-task` coroutine, with the browser-process
lifecycle flags the claims are about. -/
structure TaskRun where
  job : Job
  events : List ProgressEvent
  processSpawned : Bool
  processTerminated : Bool
  browserStarted : Bool
  browserStopped : Bool
deriving DecidableEq

/-- The local `update_progress` of `run_automation_task`. -/
def tupd (r : TaskRun) (st : String) (p : Nat) (message : String) : TaskRun :=
  let j := r.job
  let j := { j with status := st, progress := p, messages := j.messages ++ [message] }
  { r with job := j, events := r.events ++ [⟨st, p, message⟩] }

/-- `agent.run_automation_task`, run on the fresh `/run-task` registry entry.

External outcomes are injected: whether `browser_use` imported, the
environment key, whether a Chrome executable path exists, whether
`subprocess.Popen` raised, the debugging endpoint's poll responses, the engine
run's result, and the contents of the open pages for the post-run check (the
post-run `get_context` is assumed to succeed; its own failure merely skips the
check).  A non-blocking engine failure is re-raised into the outer `except`,
which reports `error` — on that path `browser.stop()` is never reached. -/
def run_automation_task (browserUseAvailable : Bool) (apiKey : Option String)
    (chromeFound : Bool) (debugPort : Nat) (launchError : Option String)
    (endpoint : Nat → PollResponse) (agentOutcome : AgentRunResult)
    (pages : List String) (taskDescription : String) : TaskRun :=
  let r : TaskRun :=
    { job := initial_run_task_job taskDescription, events := [],
      processSpawned := false, processTerminated := false,
      browserStarted := false, browserStopped := false }
  let r := tupd r "starting" 5 "Initializing browser automation..."
  if ¬browserUseAvailable then
    tupd r "error" 0 "browser-use library not installed"
  else
    match apiKey with
    | none => tupd r "error" 0 "GEMINI_API_KEY not configured"
    | some _ =>
      let r := tupd r "initializing" 10 "Starting Chrome browser (visible mode)..."
      if ¬chromeFound then
        tupd r "error" 0
          "Google Chrome not found. Please install Chrome from https://www.google.com/chrome/"
      else
        let r := tupd r "initializing" 15
          ("Launching Chrome on port " ++ toString debugPort ++ "...")
        match launchError with
        | some e => tupd r "error" 0 ("Failed to launch Chrome: " ++ e)
        | none =>
          let r := { r with processSpawned := true }
          let a := attachGo endpoint 20 0 none
          match a.1 with
          | none =>
            let r := { r with processTerminated := true }
            tupd r "error" 0 ("Failed to connect to Chrome CDP: " ++ pyOptStr a.2.1)
          | some _cdpUrl =>
            let r := { r with browserStarted := true }
            let r := tupd r "running" 20 "Executing task..."
            match agentOutcome with
            | .raises msg =>
              if blockingError msg then
                let r := tupd r "blocked" 0 ("Blocked by site protection: " ++ msg)
                { r with browserStopped := true }
              else
                tupd r "error" 0 ("Task failed: " ++ msg)
            | .ok historyStr =>
              let chk := check_current_page_for_cloudflare pages
              if chk.1 = true then
                let r := tupd r "blocked" 50 ("Page blocked: " ++ chk.2)
                { r with browserStopped := true }
              else if historyBlocked historyStr then
                let r := tupd r "blocked" 75 "Agent detected page protection/blocking"
                { r with browserStopped := true }
              else
                let r := tupd r "completed" 100 "Task completed successfully!"
                { r with browserStopped := true }

/-! ## Helper lemmas -/

theorem attachGo_attempts_le (endpoint : Nat → PollResponse) :
    ∀ (fuel i : Nat) (le : Option String), (attachGo endpoint fuel i le).2.2 ≤ fuel := by
  intro fuel
  induction fuel with
  | zero => intro i le; simp [attachGo]
  | succ n ih =>
    intro i le
    unfold attachGo
    cases endpoint i with
    | connRefused => exact Nat.succ_le_succ (ih (i + 1) _)
    | otherError m => exact Nat.succ_le_succ (ih (i + 1) _)
    | httpResp stc ws =>
      by_cases h200 : stc = 200
      · simp only [h200, if_pos rfl]; exact Nat.le_add_left 1 n
      · by_cases h502 : stc = 502
        · simp only [if_neg h200, h502, if_pos rfl]
          exact Nat.succ_le_succ (ih (i + 1) _)
        · simp only [if_neg h200, if_neg h502]
          exact Nat.succ_le_succ (ih (i + 1) _)

theorem attachGo_eq_none (endpoint : Nat → PollResponse) :
    ∀ (fuel i : Nat) (le : Option String),
      (∀ j, i ≤ j → j < i + fuel → isOk200 (endpoint j) = false) →
      (attachGo endpoint fuel i le).1 = none := by
  intro fuel
  induction fuel with
  | zero => intro i le _; simp [attachGo]
  | succ n ih =>
    intro i le hno
    have hstep : ∀ j, i + 1 ≤ j → j < (i + 1) + n → isOk200 (endpoint j) = false := by
      intro j h1 h2
      exact hno j (Nat.le_of_succ_le h1) (by omega)
    have hi : isOk200 (endpoint i) = false :=
      hno i (Nat.le_refl i) (by omega)
    unfold attachGo
    cases hei : endpoint i with
    | connRefused => exact ih (i + 1) _ hstep
    | otherError m => exact ih (i + 1) _ hstep
    | httpResp stc ws =>
      have h200 : ¬ stc = 200 := by
        intro h
        rw [hei, h] at hi
        simp [isOk200] at hi
      by_cases h502 : stc = 502
      · simp only [if_neg h200, h502, if_pos rfl]
        exact ih (i + 1) _ hstep
      · simp only [if_neg h200, if_neg h502]
        exact ih (i + 1) _ hstep

theorem attachGo_eq_some (endpoint : Nat → PollResponse) :
    ∀ (fuel i : Nat) (le : Option String) (k : Nat) (u : String),
      i ≤ k → k < i + fuel → endpoint k = .httpResp 200 (some u) →
      (∀ j, i ≤ j → j < k → isOk200 (endpoint j) = false) →
      (attachGo endpoint fuel i le).1 = some u := by
  intro fuel
  induction fuel with
  | zero => intro i le k u h1 h2 _ _; omega
  | succ n ih =>
    intro i le k u h1 h2 hk hpre
    by_cases hik : k = i
    · subst hik
      unfold attachGo
      rw [hk]
      simp
    · have hlt : i < k := Nat.lt_of_le_of_ne h1 (fun h => hik h.symm)
      have hi : isOk200 (endpoint i) = false := hpre i (Nat.le_refl i) hlt
      have hrec : ∀ j, i + 1 ≤ j → j < k → isOk200 (endpoint j) = false := by
        intro j hj1 hj2
        exact hpre j (Nat.le_of_succ_le hj1) hj2
      unfold attachGo
      cases hei : endpoint i with
      | connRefused => exact ih (i + 1) _ k u hlt (by omega) hk hrec
      | otherError m => exact ih (i + 1) _ k u hlt (by omega) hk hrec
      | httpResp stc ws =>
        have h200 : ¬ stc = 200 := by
          intro h
          rw [hei, h] at hi
          simp [isOk200] at hi
        by_cases h502 : stc = 502
        · simp only [if_neg h200, h502, if_pos rfl]
          exact ih (i + 1) _ k u hlt (by omega) hk hrec
        · simp only [if_neg h200, if_neg h502]
          exact ih (i + 1) _ k u hlt (by omega) hk hrec

theorem lookup_setJob (reg : Registry) (id : String) (j t : Job)
    (h : List.lookup id reg = some t) :
    List.lookup id (setJob reg id j) = some j := by
  induction reg with
  | nil => simp [List.lookup] at h
  | cons p rest ih =>
    obtain ⟨k, v⟩ := p
    by_cases hk : k = id
    · subst hk
      simp [setJob, List.lookup]
    · have hne : (id == k) = false := by
        simp [beq_eq_false_iff_ne]
        exact fun hh => hk hh.symm
      simp only [List.lookup, hne] at h
      simp only [setJob, if_neg hk, List.lookup, hne]
      exact ih h

/-! ## Claim C7 -/

set_option maxRecDepth 40000 in
/-- C7: the protection classifier returns the spec's four test-vector results:
a 403 cloudflare challenge page is blocked with the Cloudflare reason, a
normal welcome page of length at least 100 at status 200 is accessible, a 429
"too many requests" response is blocked with the rate-limit reason, and a 200
response with empty content is blocked with the empty-content reason. -/
theorem protection_detector_test_vectors :
    check_page_accessibility 403 [("Server", "cloudflare")]
        "<html>Checking your browser... Ray ID: abc123</html>"
      = (false, "Cloudflare protection detected")
  ∧ check_page_accessibility 200 []
        "<html><body>Welcome to the University Portal. We are glad you are here. Please browse our programs and admissions pages.</body></html>"
      = (true, "Page is accessible")
  ∧ 100 ≤ ("<html><body>Welcome to the University Portal. We are glad you are here. Please browse our programs and admissions pages.</body></html>" : String).length
  ∧ check_page_accessibility 429 [] "too many requests"
      = (false, "Rate limiting detected")
  ∧ check_page_accessibility 200 [] ""
      = (false, "Empty or minimal page content") := by
  refine ⟨?_, ?_, ?_, ?_, ?_⟩ <;> decide

/-! ## Claim C5 -/

/-- A page of 133 characters (well under any plausible "small page" threshold,
and under the 100-character minimum-content bound plus padding) containing the
challenge phrases `Checking your browser before accessing` and `Ray ID:`. -/
def smallChallengePage : String :=
  "Checking your browser before accessing the site. Ray ID: 533beadc. This page is part of an ordinary article about web infrastructure."

/-- A long page with a benign body and none of the fixed challenge phrases. -/
def benignPortalPage : String :=
  "<html><body>This portal is open for undergraduate admissions. Fill in the form fields and save your draft.</body></html>"

set_option maxRecDepth 40000 in
/-- C5 counterexample: the detector has no status-independent small-page
branch — a status-200 page containing challenge phrases is classified
accessible — and a 403 response whose `Server` header says cloudflare but
whose body has no challenge phrase is not classified as Cloudflare either
(it falls through to the generic HTTP-error rule). -/
theorem cloudflare_small_page_counterexample :
    has_cloudflare_protection 200 [] smallChallengePage = false
  ∧ check_page_accessibility 200 [] smallChallengePage = (true, "Page is accessible")
  ∧ has_cloudflare_protection 403 [("Server", "cloudflare")] benignPortalPage = false
  ∧ check_page_accessibility 403 [("Server", "cloudflare")] benignPortalPage
      = (false, "HTTP error: 403") := by
  refine ⟨?_, ?_, ?_, ?_⟩ <;> decide

/-- C5 amended: Cloudflare-interstitial detection fires exactly when the
status is 403 or 503 AND the page text contains one of the fixed challenge
phrases; the `Server`-header test is redundant (it never suffices on its own)
and no phrase triggers detection at any other status, however small the page. -/
theorem has_cloudflare_protection_characterization (status_code : Nat)
    (headers : Headers) (html_content : String) :
    has_cloudflare_protection status_code headers html_content
      = (decide (status_code = 403 ∨ status_code = 503)
          && cloudflare_flags.any (fun f => strContains html_content f)) := by
  simp only [has_cloudflare_protection]
  by_cases h : status_code = 403 ∨ status_code = 503
  · rw [if_pos h, decide_eq_true h, Bool.true_and]
    cases hf : cloudflare_flags.any (fun f => strContains html_content f) <;> simp
  · rw [if_neg h, decide_eq_false h, Bool.false_and]

/-! ## Claim C6 -/

/-- C6: the CDP attach loop polls the `/json/version` resource once per
1-second sleep for at most 20 attempts (`attempts_used` bounds the sleeps),
distinguishing connection-refused (keep waiting, record the still-starting
reason) from non-200 responses (502 records a distinct gateway reason) from a
valid response: the first 200 response's `webSocketDebuggerUrl` is extracted
and returned; and when all 20 attempts pass without a 200 response,
`run_automation_task` terminates the spawned process and records the attach
failure carrying the last observed error. -/
theorem attach_loop_spec (endpoint : Nat → PollResponse) :
    (attachGo endpoint 20 0 none).2.2 ≤ 20
  ∧ (∀ (k : Nat) (u : String), k < 20 → endpoint k = .httpResp 200 (some u) →
      (∀ j, j < k → isOk200 (endpoint j) = false) →
      (attachGo endpoint 20 0 none).1 = some u)
  ∧ (∀ (key : String) (debugPort : Nat) (agentOutcome : AgentRunResult)
        (pages : List String) (taskDescription : String),
      (∀ i, i < 20 → isOk200 (endpoint i) = false) →
      (run_automation_task true (some key) true debugPort none endpoint
          agentOutcome pages taskDescription).processTerminated = true
      ∧ (run_automation_task true (some key) true debugPort none endpoint
          agentOutcome pages taskDescription).job.status = "error"
      ∧ (run_automation_task true (some key) true debugPort none endpoint
          agentOutcome pages taskDescription).job.messages.getLast?
          = some ("Failed to connect to Chrome CDP: "
              ++ pyOptStr (attachGo endpoint 20 0 none).2.1)) := by
  refine ⟨attachGo_attempts_le endpoint 20 0 none, ?_, ?_⟩
  · intro k u hk hval hpre
    exact attachGo_eq_some endpoint 20 0 none k u (Nat.zero_le k) (by omega) hval
      (fun j _ hj2 => hpre j hj2)
  · intro key debugPort agentOutcome pages taskDescription hfail
    have hnone : (attachGo endpoint 20 0 none).1 = none :=
      attachGo_eq_none endpoint 20 0 none (fun j _ hj2 => hfail j (by omega))
    rcases hA : attachGo endpoint 20 0 none with ⟨c, le2, n⟩
    rw [hA] at hnone
    simp only at hnone
    subst hnone
    refine ⟨?_, ?_, ?_⟩ <;>
      simp [run_automation_task, hA, tupd, initial_run_task_job, List.getLast?_concat]

/-- Connection refused for the first five polls, then a valid payload. -/
def attachEndpointDelayed : Nat → PollResponse :=
  fun i => if i < 5 then .connRefused else .httpResp 200 (some "ws://ok")

/-- Never ready: connection refused on every poll. -/
def attachEndpointNeverReady : Nat → PollResponse :=
  fun _ => .connRefused

/-- Witness for C6: with five refusals then a valid payload the loop returns
the extracted URL, and with twenty refusals the process is terminated. -/
theorem attach_loop_spec_witness :
    (attachGo attachEndpointDelayed 20 0 none).1 = some "ws://ok"
  ∧ (run_automation_task true (some "k") true 9222 none attachEndpointNeverReady
      (.ok "") [] "t").processTerminated = true := by
  constructor
  · exact (attach_loop_spec attachEndpointDelayed).2.1 5 "ws://ok" (by decide)
      (by decide) (by decide)
  · exact ((attach_loop_spec attachEndpointNeverReady).2.2 "k" 9222 (.ok "") [] "t"
      (fun i _ => rfl)).1

/-! ## Claim C10 -/

/-- C10: both job-creation endpoints write the registry entry — progress 0, a
non-terminal initial status, an empty or single-message log — before
returning, so `GetStatus` on the returned id succeeds (never `NotFound`), and
on the `/api/apply` entry, whose message list is empty, it returns the
fallback message `"Waiting..."`. -/
theorem job_creation_registers_before_return (reg : Registry)
    (freshId desc key : String) (envKey : Option String) :
    run_task reg freshId desc
      = ((freshId, initial_run_task_job desc) :: reg,
         { status := "Task Started", task_description := desc, task_id := freshId })
  ∧ get_status ((freshId, initial_run_task_job desc) :: reg) freshId
      = .ok { task_id := freshId, status := "started", progress := 0,
              message := "Task queued for execution", account_created := none }
  ∧ terminalStatuses.contains "started" = false
  ∧ start_application reg freshId (some key) envKey
      = .ok ((freshId, initial_apply_job) :: reg,
             { task_id := freshId, status := "started" })
  ∧ get_status ((freshId, initial_apply_job) :: reg) freshId
      = .ok { task_id := freshId, status := "queued", progress := 0,
              message := "Waiting...", account_created := none }
  ∧ terminalStatuses.contains "queued" = false := by
  refine ⟨rfl, ?_, by decide, rfl, ?_, by decide⟩
  · simp [get_status, List.lookup, initial_run_task_job]
  · simp [get_status, List.lookup, initial_apply_job]

/-! ## Claim C2 -/

/-- A registry entry parked at the confirmation gate. -/
def awaitingJob : Job :=
  { status := "awaiting_confirmation", progress := 90,
    messages := ["Application filled. Awaiting teacher review..."],
    account_credentials := none, user_action := none, description := none }

/-- C2 counterexample: a successful `Decide` does not move the job out of
`awaiting_confirmation` (it only records `user_action`), so an immediate
second `Decide` on the same job also succeeds — and overwrites the first
decision — instead of failing with `InvalidState`. -/
theorem decide_second_call_succeeds_counterexample :
    confirm_submission [("t", awaitingJob)] "t" "submit"
      = .ok [("t", { awaitingJob with user_action := some "submit" })]
  ∧ confirm_submission [("t", { awaitingJob with user_action := some "submit" })]
      "t" "cancel"
      = .ok [("t", { awaitingJob with user_action := some "cancel" })] := by
  constructor <;> rfl

/-- Whether an `Except` result is a success. -/
def exceptIsOk {ε α : Type} : Except ε α → Bool
  | .ok _ => true
  | .error _ => false

/-- C2 amended: `Decide` fails with `NotFound` on an unknown id and with
`InvalidState` (400) when the job is not currently `awaiting_confirmation`;
a successful `Decide` records `user_action` but leaves the status unchanged,
so a second `Decide` issued before the lifecycle coroutine consumes the
decision also succeeds (overwriting the action); only once the lifecycle has
moved the job to any non-`awaiting_confirmation` status does a further
`Decide` fail with `InvalidState`. -/
theorem decide_gate_behaviour (reg : Registry) (id action action2 : String) :
    (List.lookup id reg = none →
      confirm_submission reg id action = .error (404, "Task not found"))
  ∧ (∀ t : Job, List.lookup id reg = some t → t.status ≠ "awaiting_confirmation" →
      confirm_submission reg id action
        = .error (400, "Task not awaiting confirmation"))
  ∧ (∀ t : Job, List.lookup id reg = some t → t.status = "awaiting_confirmation" →
      confirm_submission reg id action
        = .ok (setJob reg id { t with user_action := some action })
      ∧ List.lookup id (setJob reg id { t with user_action := some action })
          = some { t with user_action := some action }
      ∧ exceptIsOk (confirm_submission
          (setJob reg id { t with user_action := some action }) id action2) = true
      ∧ (∀ j : Job, j.status ≠ "awaiting_confirmation" →
          confirm_submission (setJob reg id j) id action2
            = .error (400, "Task not awaiting confirmation"))) := by
  refine ⟨?_, ?_, ?_⟩
  · intro h
    simp [confirm_submission, h]
  · intro t hl hs
    simp [confirm_submission, hl, hs]
  · intro t hl hs
    have hL : List.lookup id (setJob reg id { t with user_action := some action })
        = some { t with user_action := some action } := lookup_setJob reg id _ t hl
    refine ⟨by simp [confirm_submission, hl, hs], hL, ?_, ?_⟩
    · simp only [hs] at hL
      simp [confirm_submission, hs, hL, exceptIsOk]
    · intro j hj
      have hLj : List.lookup id (setJob reg id j) = some j := lookup_setJob reg id j t hl
      simp [confirm_submission, hLj, hj]

/-- A completed registry entry (used to exercise the non-awaiting branch). -/
def completedJob : Job :=
  { status := "completed", progress := 100,
    messages := ["Application submitted successfully!"],
    account_credentials := none, user_action := some "submit", description := none }

/-- Witness for C2 amended: a Decide on an empty registry is `NotFound`, a
Decide on a completed job is `InvalidState`, and a Decide on a parked job
succeeds recording the action. -/
theorem decide_gate_behaviour_witness :
    confirm_submission [] "t" "submit" = .error (404, "Task not found")
  ∧ confirm_submission [("t", completedJob)] "t" "submit"
      = .error (400, "Task not awaiting confirmation")
  ∧ confirm_submission [("t", awaitingJob)] "t" "cancel"
      = .ok (setJob [("t", awaitingJob)] "t"
          { awaitingJob with user_action := some "cancel" }) := by
  refine ⟨?_, ?_, ?_⟩
  · exact (decide_gate_behaviour [] "t" "submit" "cancel").1 rfl
  · exact (decide_gate_behaviour [("t", completedJob)] "t" "submit" "cancel").2.1
      completedJob (by rfl) (by decide)
  · exact ((decide_gate_behaviour [("t", awaitingJob)] "t" "cancel" "submit").2.2
      awaitingJob (by rfl) (by rfl)).1

/-! ## Claim C8 -/

/-- C8 counterexample: `websocket_connections` keeps a single connection per
job id, so after a second subscriber attaches to the same job, an event
published afterwards is pushed only to the second subscriber — the first one,
although still attached, receives none of the subsequently pushed events. -/
theorem progress_push_single_slot_counterexample :
    receivedBy (publishWs (subscribeWs (subscribeWs { conn := none, delivered := [] } 1) 2)
        { status := "running", progress := 20, message := "Executing task..." }) 1 = []
  ∧ receivedBy (publishWs (subscribeWs (subscribeWs { conn := none, delivered := [] } 1) 2)
        { status := "running", progress := 20, message := "Executing task..." }) 2
      = [{ status := "running", progress := 20, message := "Executing task..." }] := by
  constructor <;> rfl

/-- C8 amended: each pushed progress event reaches only the most recently
subscribed connection of the job (the per-job connection slot is overwritten
by a new subscription, so an earlier subscriber stops receiving pushed
events), while `GetStatus` — which reads the registry and ignores the
connection slot entirely — always returns the job's current snapshot
regardless of subscription timing. -/
theorem progress_push_latest_subscriber_only (b : Bus) (s1 s2 : Nat)
    (e : ProgressEvent) (hne : s1 ≠ s2) :
    receivedBy (publishWs (subscribeWs (subscribeWs b s1) s2) e) s1 = receivedBy b s1
  ∧ receivedBy (publishWs (subscribeWs (subscribeWs b s1) s2) e) s2
      = receivedBy b s2 ++ [e]
  ∧ (∀ (reg : Registry) (id : String) (t : Job), List.lookup id reg = some t →
      get_status reg id
        = .ok { task_id := id, status := t.status, progress := t.progress,
                message := (t.messages.getLast?).getD "Waiting...",
                account_created := t.account_credentials }) := by
  have h21 : (s2 == s1) = false := by
    simp [beq_eq_false_iff_ne]
    exact fun h => hne h.symm
  refine ⟨?_, ?_, ?_⟩
  · simp [publishWs, subscribeWs, receivedBy, List.filter_append, h21]
  · simp [publishWs, subscribeWs, receivedBy, List.filter_append]
  · intro reg id t hl
    simp [get_status, hl]

/-- Witness for C8 amended: with subscribers 1 then 2 on a fresh bus, a pushed
event reaches subscriber 2 and `GetStatus` still reads the registry snapshot. -/
theorem progress_push_latest_subscriber_only_witness :
    receivedBy (publishWs (subscribeWs (subscribeWs { conn := none, delivered := [] } 1) 2)
        { status := "starting", progress := 5, message := "Initializing browser automation..." }) 2
      = [{ status := "starting", progress := 5, message := "Initializing browser automation..." }]
  ∧ get_status [("w", awaitingJob)] "w"
      = .ok { task_id := "w", status := "awaiting_confirmation", progress := 90,
              message := "Application filled. Awaiting teacher review...",
              account_created := none } := by
  constructor
  · exact (progress_push_latest_subscriber_only { conn := none, delivered := [] } 1 2
      { status := "starting", progress := 5, message := "Initializing browser automation..." }
      (by decide)).2.1
  · exact (progress_push_latest_subscriber_only { conn := none, delivered := [] } 1 2
      { status := "starting", progress := 5, message := "Initializing browser automation..." }
      (by decide)).2.2 [("w", awaitingJob)] "w" awaitingJob rfl

/-! ## Claim C9 -/

/-- C9 counterexample: credentials are fabricated at prompt-build time, not on
account creation — a run whose engine history is empty (the engine performed
no actions at all, so certainly created no account) still ends with the
pre-generated `{email, password, university}` stored in the job. -/
theorem credentials_without_account_creation_counterexample :
    (run_application_automation true "full" none "s@x.com" "MIT" "pw1234" (.ok [])
        "submit" none none).job.account_credentials
      = some { email := "s@x.com", password := "pw1234", university := "MIT" }
  ∧ (run_application_automation true "full" none "s@x.com" "MIT" "pw1234" (.ok [])
        "submit" none none).job.status = "completed" := by
  constructor <;> rfl

/-- C9 amended: the credentials field is written at most once per run, and its
presence is determined by the prompt path, not by whether an account was
created: whenever the internally-built prompt is used (no custom prompt) the
pre-generated credentials are stored — even on engine failure or an empty
history — and with a custom prompt they are never stored. -/
theorem credentials_pregenerated_set_once (mode : String) (cp : Option String)
    (email uni pw : String) (outcome : EngineRun) (decision : String)
    (submitError closeError : Option String) :
    (run_application_automation true mode cp email uni pw outcome decision
        submitError closeError).credWrites ≤ 1
  ∧ (cp = none →
      (run_application_automation true mode cp email uni pw outcome decision
          submitError closeError).job.account_credentials
        = some { email := email, password := pw, university := uni })
  ∧ (∀ p : String, cp = some p →
      (run_application_automation true mode cp email uni pw outcome decision
          submitError closeError).job.account_credentials = none) := by
  refine ⟨?_, ?_, ?_⟩
  · rcases cp with _ | p <;> rcases outcome with h | m <;>
      by_cases hm : mode = "semi" <;> by_cases hd : decision = "submit" <;>
      rcases submitError with _ | se <;> rcases closeError with _ | ce <;>
      simp [run_application_automation, apply_to_university, parse_agent_history,
        upd, setCredentials, setUserAction, submit_application, closeAgent,
        initial_apply_job, hm, hd]
  · intro hcp
    subst hcp
    rcases outcome with h | m <;>
      by_cases hm : mode = "semi" <;> by_cases hd : decision = "submit" <;>
      rcases submitError with _ | se <;> rcases closeError with _ | ce <;>
      simp [run_application_automation, apply_to_university, parse_agent_history,
        upd, setCredentials, setUserAction, submit_application, closeAgent,
        initial_apply_job, hm, hd]
  · intro p hcp
    subst hcp
    rcases outcome with h | m <;>
      by_cases hm : mode = "semi" <;> by_cases hd : decision = "submit" <;>
      rcases submitError with _ | se <;> rcases closeError with _ | ce <;>
      simp [run_application_automation, apply_to_university, parse_agent_history,
        upd, setCredentials, setUserAction, submit_application, closeAgent,
        initial_apply_job, hm, hd]

/-- Witness for C9 amended: a semi run over the internal prompt stores the
pre-generated credentials even though it was cancelled. -/
theorem credentials_pregenerated_set_once_witness :
    (run_application_automation true "semi" none "a@b.c" "U" "p" (.ok ["x"])
        "cancel" none none).job.account_credentials
      = some { email := "a@b.c", password := "p", university := "U" } :=
  (credentials_pregenerated_set_once "semi" none "a@b.c" "U" "p" (.ok ["x"])
    "cancel" none none).2.1 rfl

/-! ## Claim C1 -/

/-- C1 counterexample: a review-mode (`semi`) job whose engine run raises is
still marked `completed` — directly after the engine's own `error` report —
without ever entering `awaiting_confirmation` and with no decision recorded
(`user_action` stays `none`); the decision argument is never consulted on
this path. -/
theorem review_completed_without_confirmation_counterexample :
    statusesOf (run_application_automation true "semi" none "s@x.com" "MIT" "pw1234"
        (.err "boom") "submit" none none)
      = ["starting", "searching", "initializing", "searching", "error", "completed"]
  ∧ (run_application_automation true "semi" none "s@x.com" "MIT" "pw1234"
        (.err "boom") "submit" none none).job.status = "completed"
  ∧ (statusesOf (run_application_automation true "semi" none "s@x.com" "MIT" "pw1234"
        (.err "boom") "submit" none none)).contains "awaiting_confirmation" = false
  ∧ (run_application_automation true "semi" none "s@x.com" "MIT" "pw1234"
        (.err "boom") "submit" none none).job.user_action = none := by
  refine ⟨rfl, rfl, rfl, rfl⟩

/-- C1 amended: when the engine run of a review-mode job returns normally
(the result carries the ready-for-review flag), the job does pass through
`awaiting_confirmation`, and its reaching `completed` implies the recorded
decision was `submit`; but a review-mode job whose run result lacks the flag
(engine unavailable or engine failure) is marked `completed` directly, as the
counterexample shows. -/
theorem review_mode_gate_on_successful_run (cp : Option String)
    (email uni pw : String) (history : List String) (decision : String)
    (submitError closeError : Option String) :
    (statusesOf (run_application_automation true "semi" cp email uni pw (.ok history)
        decision submitError closeError)).contains "awaiting_confirmation" = true
  ∧ ((run_application_automation true "semi" cp email uni pw (.ok history)
        decision submitError closeError).job.status = "completed" →
      decision = "submit") := by
  by_cases hd : decision = "submit" <;>
    rcases submitError with _ | se <;> rcases closeError with _ | ce <;>
    rcases cp with _ | p <;>
    constructor <;>
    simp [run_application_automation, apply_to_university, parse_agent_history,
      statusesOf, upd, setCredentials, setUserAction, submit_application,
      closeAgent, initial_apply_job, hd]

/-- Witness for C1 amended: a successful review run that is cancelled passes
through `awaiting_confirmation` and does not end `completed`. -/
theorem review_mode_gate_on_successful_run_witness :
    (statusesOf (run_application_automation true "semi" none "a@b.c" "U" "p"
        (.ok ["filled the form"]) "cancel" none none)).contains
      "awaiting_confirmation" = true :=
  (review_mode_gate_on_successful_run none "a@b.c" "U" "p" ["filled the form"]
    "cancel" none none).1

/-! ## Claim C3 -/

/-- C3 counterexample: within a single review-mode run whose engine raises,
the trace reaches the terminal `error` state (progress reset to 0) and is then
overwritten by a `completed` write at progress 100 — terminal states are not
pinned inside the lifecycle coroutine. -/
theorem terminal_error_overwritten_counterexample :
    statusesOf (run_application_automation true "semi" none "s@x.com" "MIT" "pw1234"
        (.err "boom") "cancel" none none)
      = ["starting", "searching", "initializing", "searching", "error", "completed"]
  ∧ terminalPinned (run_application_automation true "semi" none "s@x.com" "MIT" "pw1234"
        (.err "boom") "cancel" none none).events = false := by
  constructor <;> rfl

/-- C3 amended: once a job rests in a terminal status, the public operations
change nothing: `Decide` fails with `InvalidState` (400) and `GetStatus` is a
pure read returning the terminal snapshot; but within the lifecycle coroutine
a terminal write is not pinned — the engine's `error` report is overwritten by
`completed`, as the counterexample shows. -/
theorem terminal_states_closed_to_operations (reg : Registry) (id action : String)
    (t : Job) (hl : List.lookup id reg = some t)
    (ht : terminalStatuses.contains t.status = true) :
    confirm_submission reg id action = .error (400, "Task not awaiting confirmation")
  ∧ get_status reg id
      = .ok { task_id := id, status := t.status, progress := t.progress,
              message := (t.messages.getLast?).getD "Waiting...",
              account_created := t.account_credentials } := by
  have hne : t.status ≠ "awaiting_confirmation" := by
    intro h
    rw [h] at ht
    exact absurd ht (by decide)
  constructor
  · simp [confirm_submission, hl, hne]
  · simp [get_status, hl]

/-- Witness for C3 amended: Decide on a completed job is rejected with 400. -/
theorem terminal_states_closed_to_operations_witness :
    confirm_submission [("t", completedJob)] "t" "cancel"
      = .error (400, "Task not awaiting confirmation") :=
  (terminal_states_closed_to_operations [("t", completedJob)] "t" "cancel"
    completedJob rfl (by decide)).1

/-! ## Claim C4 -/

/-- A debugging endpoint that is ready on the first poll. -/
def attachEndpointReady : Nat → PollResponse :=
  fun _ => .httpResp 200 (some "ws://127.0.0.1:9222/devtools/browser")

/-- C4 counterexample: when the engine run raises a non-blocking error after
the browser has started, the re-raise lands in the outer `except`, which only
records `error` — `browser.stop()` is never executed and the process is not
terminated, so the browser (and its profile directory) leaks. -/
theorem browser_leak_on_error_counterexample :
    (run_automation_task true (some "k") true 9222 none attachEndpointReady
        (.raises "boom") [] "apply to MIT").job.status = "error"
  ∧ (run_automation_task true (some "k") true 9222 none attachEndpointReady
        (.raises "boom") [] "apply to MIT").browserStarted = true
  ∧ (run_automation_task true (some "k") true 9222 none attachEndpointReady
        (.raises "boom") [] "apply to MIT").browserStopped = false
  ∧ (run_automation_task true (some "k") true 9222 none attachEndpointReady
        (.raises "boom") [] "apply to MIT").processTerminated = false := by
  refine ⟨rfl, rfl, rfl, rfl⟩

/-- C4 amended: cleanup holds on the `completed` and `blocked` endings (the
browser is stopped there) and on attach failure (the spawned process is
terminated), but it is not guaranteed on every terminal transition: an
`error` ending after the browser started leaves the browser running, as the
counterexample shows, and the profile directory is never deleted anywhere. -/
theorem browser_release_on_completed_blocked (available : Bool)
    (apiKey : Option String) (chromeFound : Bool) (debugPort : Nat)
    (launchError : Option String) (endpoint : Nat → PollResponse)
    (agentOutcome : AgentRunResult) (pages : List String) (desc : String) :
    ((run_automation_task available apiKey chromeFound debugPort launchError
        endpoint agentOutcome pages desc).job.status = "completed"
      ∨ (run_automation_task available apiKey chromeFound debugPort launchError
          endpoint agentOutcome pages desc).job.status = "blocked" →
      (run_automation_task available apiKey chromeFound debugPort launchError
          endpoint agentOutcome pages desc).browserStopped = true)
  ∧ ((run_automation_task available apiKey chromeFound debugPort launchError
        endpoint agentOutcome pages desc).processSpawned = true →
      (run_automation_task available apiKey chromeFound debugPort launchError
          endpoint agentOutcome pages desc).browserStarted = true
      ∨ (run_automation_task available apiKey chromeFound debugPort launchError
          endpoint agentOutcome pages desc).processTerminated = true) := by
  rcases hA : attachGo endpoint 20 0 none with ⟨c, le2, n⟩
  cases available <;> rcases apiKey with _ | key <;> cases chromeFound <;>
    rcases launchError with _ | le <;> rcases c with _ | u <;>
    rcases agentOutcome with ⟨hist⟩ | ⟨msg⟩ <;>
    constructor <;>
    simp [run_automation_task, hA, tupd, initial_run_task_job] <;>
    split_ifs <;> simp

set_option maxRecDepth 40000 in
/-- Witness for C4 amended: a run that completes has its browser stopped, and
an attach failure has its process terminated. -/
theorem browser_release_on_completed_blocked_witness :
    (run_automation_task true (some "k") true 9222 none attachEndpointReady
        (.ok "done") ["<html><body>A plain results page with a sufficient amount of ordinary readable text to pass the minimum content size rule.</body></html>"] "apply").browserStopped = true
  ∧ (run_automation_task true (some "k") true 9222 none attachEndpointNeverReady
        (.ok "done") [] "apply").processTerminated = true := by
  constructor
  · exact (browser_release_on_completed_blocked true (some "k") true 9222 none
      attachEndpointReady (.ok "done")
      ["<html><body>A plain results page with a sufficient amount of ordinary readable text to pass the minimum content size rule.</body></html>"]
      "apply").1 (Or.inl (by decide))
  · have h := (browser_release_on_completed_blocked true (some "k") true 9222 none
      attachEndpointNeverReady (.ok "done") [] "apply").2 (by decide)
    rcases h with h | h
    · exact absurd h (by decide)
    · exact h

end UniAuto
